import Mathlib

/-!
Verification of `src/Photocopy/Resources/Python/photocopier.py`.

The Python service is a thin orchestration shell around an external
vision-language model.  We shallowly embed its logic in Lean:

* Python dicts holding JSON-like data become association lists
  `List (String × JValue)` (insertion order preserved, as in Python 3.7+).
* External, fallible operations (filesystem checks, `PIL.Image.open`,
  `AutoModelForCausalLM.from_pretrained`, `model.query`, `json.loads`,
  `time.time`) are fields of an `Env` record: the repository treats them
  as opaque effects, and the claims under verification are about the
  orchestration around them, which is embedded concretely.
* Python exceptions inside the service are values of `Except String`;
  the various `try/except` blocks of the source become the explicit
  error branches of the embedding.
-/

namespace Photocopy

/-- JSON-like values, the payload type of every Python dict the service
manipulates.  Numbers are modelled as rationals. -/
inductive JValue where
  | null : JValue
  | bool : Bool → JValue
  | num : Rat → JValue
  | str : String → JValue
  | arr : List JValue → JValue
  | obj : List (String × JValue) → JValue

/-- Python `d.get(k)` / `d[k]` on a string-keyed dict. -/
def dictGet (d : List (String × JValue)) (k : String) : Option JValue :=
  match d with
  | [] => none
  | (k0, v) :: rest => if k0 = k then some v else dictGet rest k

/-- Python `d[k] = v`: overwrite in place (position kept) or append. -/
def dictSet (d : List (String × JValue)) (k : String) (v : JValue) :
    List (String × JValue) :=
  match d with
  | [] => [(k, v)]
  | (k0, v0) :: rest => if k0 = k then (k, v) :: rest else (k0, v0) :: dictSet rest k v

/-- Python `d.pop(k, default)`: the dict after removing key `k`. -/
def dictPop (d : List (String × JValue)) (k : String) : List (String × JValue) :=
  match d with
  | [] => []
  | (k0, v0) :: rest => if k0 = k then rest else (k0, v0) :: dictPop rest k

/-- Python `d.update(other)` for a dict argument: keys of `other`
shallow-overwrite keys of `d`, new keys are appended in order. -/
def dictUpdate (d : List (String × JValue)) : List (String × JValue) →
    List (String × JValue)
  | [] => d
  | (k, v) :: rest => dictUpdate (dictSet d k v) rest

/-- Python truthiness of a JSON value (`if not x`, `x or y`). -/
def truthy : JValue → Bool
  | .null => false
  | .bool b => b
  | .num q => if q = 0 then false else true
  | .str s => if s = "" then false else true
  | .arr xs => !xs.isEmpty
  | .obj kvs => !kvs.isEmpty

/-- The character `{` (written by code point to keep it out of string
literals). -/
def lbrace : Char := Char.ofNat 123

/-- The character `}`. -/
def rbrace : Char := Char.ofNat 125

/-- Index of the first occurrence of `c`, as `re.search` would find the
leftmost starting position. -/
def firstIdxOf (cs : List Char) (c : Char) : Option Nat :=
  match cs with
  | [] => none
  | x :: rest => if x = c then some 0 else (firstIdxOf rest c).map (· + 1)

/-- Index of the last occurrence of `c`, as the greedy `.*` extends the
match to the rightmost closing position. -/
def lastIdxOf (cs : List Char) (c : Char) : Option Nat :=
  match cs with
  | [] => none
  | x :: rest =>
    match lastIdxOf rest c with
    | some i => some (i + 1)
    | none => if x = c then some 0 else none

/-- `re.search` of the pattern `\{.*\}` with `re.DOTALL` (photocopier.py
line 158): the leftmost match starts at the first `{` and, `.*` being
greedy and dot matching newlines, ends at the last `}`; there is a match
exactly when some `}` occurs after the first `{`. -/
def jsonMatch (s : String) : Option String :=
  match firstIdxOf s.data lbrace, lastIdxOf s.data rbrace with
  | some i, some j => if i < j then some (String.mk ((s.data.drop i).take (j - i + 1))) else none
  | _, _ => none

/-- ASCII Python whitespace (`str.strip` also removes some Unicode
spaces, which the claims do not exercise). -/
def pySpace (c : Char) : Bool :=
  c = ' ' || c = Char.ofNat 9 || c = Char.ofNat 10 || c = Char.ofNat 13 ||
    c = Char.ofNat 11 || c = Char.ofNat 12

/-- Drop leading whitespace. -/
def dropSpaces : List Char → List Char
  | [] => []
  | c :: r => if pySpace c then dropSpaces r else c :: r

/-- Python `str.strip()` on a character list: drop leading and trailing
whitespace. -/
def stripChars (g : List Char) : List Char :=
  (dropSpaces (dropSpaces g).reverse).reverse

/-- Python `str.strip()`. -/
def pyStrip (s : String) : String := String.mk (stripChars s.data)

/-- Python `s.split(",")`: split at every comma, keeping empty chunks. -/
def splitCommaCh : List Char → List (List Char)
  | [] => [[]]
  | c :: rest =>
    match splitCommaCh rest with
    | [] => [[]]
    | g :: gs => if c = ',' then [] :: g :: gs else (c :: g) :: gs

/-- The comma-split fallback of lines 169 and 177:
`[tag.strip() for tag in tags_response.split(",") if tag.strip()]`. -/
def commaTags (resp : String) : List String :=
  ((splitCommaCh resp.data).map (fun g => String.mk (stripChars g))).filter
    (fun t => t ≠ "")

/-- The five fields extracted from the tag response (lines 161-181). -/
structure TagsParse where
  tags : JValue
  objects : JValue
  scene : JValue
  colors : JValue
  actions : JValue

/-- The comma-separated fallback: raw tags, empty structured fields. -/
def fallbackParse (resp : String) : TagsParse :=
  { tags := .arr ((commaTags resp).map JValue.str)
    objects := .arr []
    scene := .str ""
    colors := .arr []
    actions := .arr [] }

/-- Lines 154-181: locate an embedded JSON object via `jsonMatch`; if
found, parse it with `json.loads` (modelled by the oracle `jl`, `none`
standing for `json.JSONDecodeError`; a valid JSON text delimited by
braces is necessarily an object, hence the oracle returns key-value
pairs) and take the structured fields from it; on absence of a match or
parse failure, fall back to comma-splitting. -/
def parseTagsResponse (jl : String → Option (List (String × JValue)))
    (resp : String) : TagsParse :=
  match jsonMatch resp with
  | some m =>
    match jl m with
    | some d =>
      { tags := (dictGet d "tags").getD (.arr [])
        objects := (dictGet d "objects").getD (.arr [])
        scene := (dictGet d "scene").getD (.str "")
        colors := (dictGet d "colors").getD (.arr [])
        actions := (dictGet d "actions").getD (.arr []) }
    | none => fallbackParse resp
  | none => fallbackParse resp

/-- `result.get("answer", "").strip()` (lines 137, 152): missing key
defaults to `""`; a non-string value has no `.strip` and raises
`AttributeError`, which the enclosing `try` turns into `analysis_error`. -/
def getAnswer (res : List (String × JValue)) : Except String String :=
  match dictGet res "answer" with
  | none => .ok ""
  | some (.str s) => .ok (pyStrip s)
  | some _ => .error "AttributeError: strip"

/-- `tags[:15]` (line 188): slicing truncates lists and strings to 15
elements and raises `TypeError` on any other value. -/
def jtake15 : JValue → Except String JValue
  | .arr xs => .ok (.arr (xs.take 15))
  | .str s => .ok (.str (String.mk (s.data.take 15)))
  | _ => .error "TypeError: unsliceable value"

/-- Python `len` on the values `jtake15` can produce. -/
def jlength : JValue → Option Nat
  | .arr xs => some xs.length
  | .str s => some s.length
  | _ => none

/-- The external world: filesystem, model library, stdlib calls and the
clock, all opaque to the repository code.  `fromPretrained` receives the
attempt index so that distinct load attempts may have distinct outcomes;
`tStart` and `tEnd` are the values `time.time()` returns at the start of
`analyze_image` and at the point its result is built. -/
structure Env where
  configExists : String → Bool
  readConfig : String → Except String JValue
  pathExists : String → Bool
  imageOpen : String → Except String (Nat × Nat)
  fromPretrained : JValue → JValue → Nat → Except String Unit
  query : Nat × Nat → String → Except String (List (String × JValue))
  jsonLoads : String → Option (List (String × JValue))
  tStart : Rat
  tEnd : Rat

/-- The `PhotocopyMLService` instance state.  `loadAttempts` is a ghost
counter of `from_pretrained` invocations and `queryCount` a ghost counter
of `model.query` invocations; neither exists in the Python source, they
only make "never attempts a load / query" claims observable. -/
structure Service where
  config : List (String × JValue)
  model : Option Unit
  device : JValue
  modelLoaded : Bool
  loadAttempts : Nat
  queryCount : Nat

/-- `default_config` of `_load_config` (lines 49-65). -/
def default_config : List (String × JValue) :=
  [("pythonVersion", .str "3.11"),
   ("architecture", .str "arm64"),
   ("model", .obj [("name", .str "moondream2"),
                   ("repository", .str "vikhyatk/moondream2"),
                   ("trustRemoteCode", .bool true),
                   ("device", .str "mps")]),
   ("generationSettings", .obj [("temperature", .num (1/2)),
                                ("maxTokens", .num 768),
                                ("topP", .num (3/10)),
                                ("length", .str "short")]),
   ("timeout", .num 60)]

/-- One element of the sequence form of `dict.update` (lines 71):
a key-value pair is extracted from an element that is a 2-element array
with a string key, a 2-character string (its two characters), or a
2-key dict (iteration yields its keys); anything else raises.  (CPython
also accepts non-string hashable keys, which a string-keyed dict cannot
represent; no claim exercises them.) -/
def pairOfElem : JValue → Except String (String × JValue)
  | .arr [k, v] =>
    match k with
    | .str ks => .ok (ks, v)
    | _ => .error "unhashable or non-string key"
  | .arr _ => .error "ValueError: element length is not 2"
  | .str s =>
    match s.data with
    | [c1, c2] => .ok (String.mk [c1], .str (String.mk [c2]))
    | _ => .error "ValueError: element length is not 2"
  | .obj kvs =>
    match kvs with
    | [(k1, _), (k2, _)] => .ok (k1, .str k2)
    | _ => .error "ValueError: element length is not 2"
  | _ => .error "TypeError: element is not a sequence"

/-- `dict.update` over a sequence argument: entries are applied one by
one, in place; on a bad element the updates applied so far are retained
and the error is reported alongside. -/
def updateFromSeq (d : List (String × JValue)) :
    List JValue → (List (String × JValue)) × Option String
  | [] => (d, none)
  | e :: rest =>
    match pairOfElem e with
    | .ok (k, v) => updateFromSeq (dictSet d k v) rest
    | .error msg => (d, some msg)

/-- `default_config.update(loaded_config)` (line 71) for an arbitrary
decoded JSON value: a dict argument shallow-overwrites; an array or
string argument is consumed as a key-value sequence (partially, on
failure); other values raise `TypeError` at once.  The first component
is the dict as mutated in place, the second the exception if one was
raised. -/
def updateFromJson (d : List (String × JValue)) :
    JValue → (List (String × JValue)) × Option String
  | .obj kvs => (dictUpdate d kvs, none)
  | .arr elems => updateFromSeq d elems
  | .str s => updateFromSeq d (s.data.map (fun c => .str (String.mk [c])))
  | _ => (d, some "TypeError: not iterable")

/-- `_load_config` (lines 47-75): defaults, optionally overlaid by a
JSON file; `if config_path and os.path.exists(config_path)` guards the
read (`None` and `""` are falsy); any exception while opening, decoding
or updating is caught and logged, and the dict as mutated so far is
returned. -/
def load_config (configPath : Option String) (env : Env) :
    List (String × JValue) :=
  match configPath with
  | none => default_config
  | some p =>
    if p = "" then default_config
    else if env.configExists p then
      match env.readConfig p with
      | .error _ => default_config
      | .ok v => (updateFromJson default_config v).1
    else default_config

/-- `self.config.get(k, {}).get(...)` prelude: fetching a sub-dict of
the config; a missing key defaults to `{}`, a non-dict value raises
`AttributeError` at the inner `.get`. -/
def configGetDict (config : List (String × JValue)) (k : String) :
    Except String (List (String × JValue)) :=
  match dictGet config k with
  | none => .ok []
  | some (.obj m) => .ok m
  | some _ => .error "AttributeError: get"

/-- `self.config.get("model", {}).get("repository", "vikhyatk/moondream2")`. -/
def modelRepo (m : List (String × JValue)) : JValue :=
  (dictGet m "repository").getD (.str "vikhyatk/moondream2")

/-- `self.config.get("model", {}).get("trustRemoteCode", True)`. -/
def modelTrust (m : List (String × JValue)) : JValue :=
  (dictGet m "trustRemoteCode").getD (.bool true)

/-- `_load_model` (lines 77-103): memoized on success only.  If
`_model_loaded` is set, return `True` at once; otherwise read the model
coordinates from the config and call `from_pretrained`; on success store
the handle, set the flag and return `True`; any exception is caught and
logged and `False` is returned (the function never raises).  The ghost
`loadAttempts` counter steps exactly when `from_pretrained` is invoked. -/
def load_model (env : Env) (s : Service) : Bool × Service :=
  if s.modelLoaded then (true, s)
  else
    match configGetDict s.config "model" with
    | .error _ => (false, s)
    | .ok m =>
      match env.fromPretrained (modelRepo m) (modelTrust m) s.loadAttempts with
      | .ok _ => (true, { s with model := some ()
                                 modelLoaded := true
                                 loadAttempts := s.loadAttempts + 1 })
      | .error _ => (false, { s with loadAttempts := s.loadAttempts + 1 })

/-- The caption prompt of line 135. -/
def captionPrompt : String := "Describe this image in a concise, natural way."

/-- The structured-tag prompt of lines 140-149. -/
def tagsPrompt : String :=
  "Analyze this image and return a JSON object with the following structure:\n\x7b\n  \"tags\": [\"tag1\", \"tag2\", \"tag3\", ...],\n  \"objects\": [\"object1\", \"object2\", ...],\n  \"scene\": \"scene description\",\n  \"colors\": [\"color1\", \"color2\", ...],\n  \"actions\": [\"action1\", \"action2\", ...]\n\x7d\n\nFocus on the most important and relevant tags. Limit tags to 10-15 items total."

/-- The output of `analyze_image`: the returned dict, the service state
after the call, and the caller's `custom_settings` value after the call
(`settings.pop` mutates it in place when it was the dict used). -/
structure AOut where
  result : List (String × JValue)
  service : Service
  custom : Option JValue

/-- The `except Exception` payload of lines 204-210. -/
def errResult (env : Env) (msg : String) : List (String × JValue) :=
  [("error", .str msg),
   ("status", .str "analysis_error"),
   ("processing_time", .num (env.tEnd - env.tStart))]

/-- Lines 128-129: `settings = custom_settings or
self.config.get("generationSettings", {})` followed by
`length = settings.pop("length", "short")`.  The `or` selects the
caller's dict only when it is truthy (so `None` and `{}` both fall back
to the config's own `generationSettings` dict); `pop` then mutates the
selected dict in place.  `pop` on a non-dict raises (`AttributeError`
for scalars and strings, `TypeError` for a list index).
`settingsFromConfig` is the fallback path: the popped dict is the one
stored inside the service configuration (or a fresh empty dict when the
key is missing), so the mutation lands in `self.config`. -/
def settingsFromConfig (s : Service) (custom : Option JValue) :
    Except String (Service × Option JValue) :=
  match dictGet s.config "generationSettings" with
  | none => .ok (s, custom)
  | some (.obj gs) =>
    .ok ({ s with config := dictSet s.config "generationSettings" (.obj (dictPop gs "length")) }, custom)
  | some _ => .error "TypeError: pop on a non-dict settings value"

def settingsStep (s : Service) : Option JValue → Except String (Service × Option JValue)
  | some v =>
    if truthy v then
      match v with
      | .obj kvs => .ok (s, some (.obj (dictPop kvs "length")))
      | _ => .error "TypeError: pop on a non-dict settings value"
    else settingsFromConfig s (some v)
  | none => settingsFromConfig s none

/-- Lines 198-201: `self.config.get("model", {}).get("name")` and the
same for `"repository"`; a non-dict `model` value raises. -/
def modelInfo (config : List (String × JValue)) : Except String JValue :=
  match dictGet config "model" with
  | none => .ok (.obj [("name", .null), ("repository", .null)])
  | some (.obj m) =>
    .ok (.obj [("name", (dictGet m "name").getD .null),
               ("repository", (dictGet m "repository").getD .null)])
  | some _ => .error "AttributeError: get"

/-- `analyze_image` (lines 105-210).  The whole body sits in a
`try/except Exception` whose handler returns the `analysis_error` dict
of `errResult`; the two early `return`s (missing file, failed load) are
ordinary returns, not exceptions.  State mutations performed before an
exception (model load, `settings.pop`) persist, hence the service state
carried by each branch. -/
def analyze_image (env : Env) (s : Service) (image_path : String)
    (custom_settings : Option JValue) : AOut :=
  if env.pathExists image_path = false then
    { result := [("error", .str ("Image file not found: " ++ image_path)),
                 ("status", .str "file_error")]
      service := s, custom := custom_settings }
  else
    match env.imageOpen image_path with
    | .error e => { result := errResult env e, service := s, custom := custom_settings }
    | .ok image =>
      if (load_model env s).1 = false then
        { result := [("error", .str "Failed to load ML model"),
                     ("status", .str "model_error")]
          service := (load_model env s).2, custom := custom_settings }
      else
          match settingsStep (load_model env s).2 custom_settings with
          | .error e =>
            { result := errResult env e, service := (load_model env s).2, custom := custom_settings }
          | .ok (s2, custom2) =>
            match env.query image captionPrompt with
            | .error e =>
              { result := errResult env e
                service := { s2 with queryCount := s2.queryCount + 1 }, custom := custom2 }
            | .ok capRes =>
              match getAnswer capRes with
              | .error e =>
                { result := errResult env e
                  service := { s2 with queryCount := s2.queryCount + 1 }, custom := custom2 }
              | .ok caption =>
                match env.query image tagsPrompt with
                | .error e =>
                  { result := errResult env e
                    service := { s2 with queryCount := s2.queryCount + 2 }, custom := custom2 }
                | .ok tagsRes =>
                  match getAnswer tagsRes with
                  | .error e =>
                    { result := errResult env e
                      service := { s2 with queryCount := s2.queryCount + 2 }, custom := custom2 }
                  | .ok tagsResponse =>
                    match jtake15 (parseTagsResponse env.jsonLoads tagsResponse).tags with
                    | .error e =>
                      { result := errResult env e
                        service := { s2 with queryCount := s2.queryCount + 2 }, custom := custom2 }
                    | .ok tags15 =>
                      match modelInfo s2.config with
                      | .error e =>
                        { result := errResult env e
                          service := { s2 with queryCount := s2.queryCount + 2 }, custom := custom2 }
                      | .ok mi =>
                        { result :=
                            [("status", .str "success"),
                             ("caption", .str caption),
                             ("tags", tags15),
                             ("analysis",
                              .obj [("objects", (parseTagsResponse env.jsonLoads tagsResponse).objects),
                                    ("scene", (parseTagsResponse env.jsonLoads tagsResponse).scene),
                                    ("colors", (parseTagsResponse env.jsonLoads tagsResponse).colors),
                                    ("actions", (parseTagsResponse env.jsonLoads tagsResponse).actions)]),
                             ("processing_time", .num (env.tEnd - env.tStart)),
                             ("image_path", .str image_path),
                             ("image_size", .arr [.num (image.1 : Rat), .num (image.2 : Rat)]),
                             ("model_info", mi)]
                          service := { s2 with queryCount := s2.queryCount + 2 }, custom := custom2 }

/-- `health_check` (lines 212-228): attempt a load, then report status
`healthy` or `not_healthy`, always echoing `_model_loaded`, the device
(constantly `None`, line 44) and the current configuration. -/
def health_check (env : Env) (s : Service) :
    (List (String × JValue)) × Service :=
  if (load_model env s).1 = false then
    ([("status", .str "not_healthy"),
      ("model_loaded", .bool (load_model env s).2.modelLoaded),
      ("device", (load_model env s).2.device),
      ("config", .obj (load_model env s).2.config)], (load_model env s).2)
  else
    ([("status", .str "healthy"),
      ("model_loaded", .bool (load_model env s).2.modelLoaded),
      ("device", (load_model env s).2.device),
      ("config", .obj (load_model env s).2.config)], (load_model env s).2)

/-- `PhotocopyMLService.__init__` (lines 40-45): merged config, no model
handle, `device = None`, flag down. -/
def mkService (config : List (String × JValue)) : Service :=
  { config := config, model := none, device := JValue.null
    modelLoaded := false, loadAttempts := 0, queryCount := 0 }

/-- Python `str()` of a JSON value, used only inside the
`f"Unknown action: ..."` message (line 297).  Container reprs are
abbreviated; no claim inspects the message for container actions. -/
def pyStr : JValue → String
  | .null => "None"
  | .bool b => if b then "True" else "False"
  | .num q => toString q
  | .str s => s
  | .arr _ => "[...]"
  | .obj _ => "dict"

/-- One process run: the JSON documents printed to stdout (the DEBUG
lines go to stderr), the exit code, the final service state, and a ghost
flag recording whether `sys.stdin` was consumed. -/
structure MainOut where
  stdout : List (List (String × JValue))
  exitCode : Nat
  service : Service
  stdinRead : Bool

/-- `return 0 if result.get("status") == "success" else 1`
(lines 267, 288). -/
def exitOf (r : List (String × JValue)) : Nat :=
  match dictGet r "status" with
  | some (.str st) => if st = "success" then 0 else 1
  | _ => 1

/-- Lines 279-284: falsy `image_path` in interactive analyze. -/
def missingImagePath (s : Service) : MainOut :=
  { stdout := [[("error", .str "image_path required"),
                ("status", .str "missing_image_path")]]
    exitCode := 1, service := s, stdinRead := true }

/-- Lines 295-300: unknown interactive action. -/
def unknownAction (s : Service) (a : Option JValue) : MainOut :=
  { stdout := [[("error", .str ("Unknown action: " ++ pyStr (a.getD .null))),
                ("status", .str "unknown_action")]]
    exitCode := 1, service := s, stdinRead := true }

/-- The body of the interactive branch once stdin decoded to a dict
(lines 275-300): dispatch on the `action` field.  A non-string truthy
`image_path` reaches `os.path.exists` inside `analyze_image` whose `try`
turns the `TypeError` into `analysis_error`. -/
def interactiveDispatch (env : Env) (s : Service) (d : List (String × JValue)) :
    MainOut :=
  match dictGet d "action" with
  | some (.str a) =>
    if a = "analyze" then
      match dictGet d "image_path" with
      | some (.str p) =>
        if p = "" then missingImagePath s
        else
          { stdout := [(analyze_image env s p (dictGet d "settings")).result]
            exitCode := exitOf (analyze_image env s p (dictGet d "settings")).result
            service := (analyze_image env s p (dictGet d "settings")).service
            stdinRead := true }
      | some v =>
        if truthy v then
          { stdout := [errResult env "TypeError: invalid path value"]
            exitCode := 1, service := s, stdinRead := true }
        else missingImagePath s
      | none => missingImagePath s
    else if a = "health" then
      { stdout := [(health_check env s).1], exitCode := 0
        service := (health_check env s).2, stdinRead := true }
    else unknownAction s (some (.str a))
  | other => unknownAction s other

/-- The interactive branch of `main` (lines 269-313): read one JSON
value from stdin (`json.JSONDecodeError` yields `json_error`), dispatch
on its `action` field; a non-dict input raises `AttributeError` at
`.get`, caught by the generic handler as `unexpected_error`. -/
def interactiveMode (env : Env) (s : Service) (stdin : Except String JValue) :
    MainOut :=
  match stdin with
  | .error _ =>
    { stdout := [[("error", .str "Invalid JSON input"),
                  ("status", .str "json_error")]]
      exitCode := 1, service := s, stdinRead := true }
  | .ok (.obj d) => interactiveDispatch env s d
  | .ok _ =>
    { stdout := [[("error", .str "Unexpected error: AttributeError"),
                  ("status", .str "unexpected_error")]]
      exitCode := 1, service := s, stdinRead := true }

/-- The `if args.mode == ...` dispatch of `main` (lines 246-313).
The health and analyze branches never touch stdin; Python's
`if not args.image` treats both an absent and an empty `--image` as
missing. -/
def runMode (env : Env) (s : Service) (mode : String) (image : Option String)
    (stdin : Except String JValue) : MainOut :=
  if mode = "health" then
    { stdout := [(health_check env s).1], exitCode := 0
      service := (health_check env s).2, stdinRead := false }
  else if mode = "analyze" then
    match image with
    | none =>
      { stdout := [[("error", .str "Image path required for analysis mode"),
                    ("status", .str "missing_image")]]
        exitCode := 1, service := s, stdinRead := false }
    | some img =>
      if img = "" then
        { stdout := [[("error", .str "Image path required for analysis mode"),
                      ("status", .str "missing_image")]]
          exitCode := 1, service := s, stdinRead := false }
      else
        { stdout := [(analyze_image env s img none).result]
          exitCode := exitOf (analyze_image env s img none).result
          service := (analyze_image env s img none).service, stdinRead := false }
  else interactiveMode env s stdin

/-- `argparse` handling of `--mode` (lines 234-235): the flag defaults
to `"analyze"` when absent and only the values `"analyze"` and
`"health"` are accepted (`choices`); any other value makes argparse
abort the process (modelled as `none`). -/
def argparseMode : Option String → Option String
  | none => some "analyze"
  | some m => if m = "analyze" then some m else if m = "health" then some m else none

/-- `main` (lines 230-313): parse arguments, build the service from the
merged configuration, dispatch on the mode.  `none` is the argparse
usage-error abort (exit code 2, before any service is created). -/
def mainRun (env : Env) (modeArg imageArg configArg : Option String)
    (stdin : Except String JValue) : Option MainOut :=
  match argparseMode modeArg with
  | none => none
  | some mode => some (runMode env (mkService (load_config configArg env)) mode imageArg stdin)

/-- An environment in which every external operation fails and no file
exists. -/
def baseEnv : Env :=
  { configExists := fun _ => false
    readConfig := fun _ => .error "IOError"
    pathExists := fun _ => false
    imageOpen := fun _ => .error "UnidentifiedImageError"
    fromPretrained := fun _ _ _ => .error "OSError: offline"
    query := fun _ _ => .error "RuntimeError"
    jsonLoads := fun _ => none
    tStart := 0
    tEnd := 1 }

/-- An environment in which the image exists and opens, the model loads,
and both queries answer the plain text "a cat" (no embedded JSON). -/
def cenvOk : Env :=
  { baseEnv with
    pathExists := fun _ => true
    imageOpen := fun _ => .ok (2, 3)
    fromPretrained := fun _ _ _ => .ok ()
    query := fun _ _ => .ok [("answer", .str "a cat")] }

/-- An environment in which the image exists but `Image.open` raises. -/
def cenvImgErr : Env :=
  { baseEnv with pathExists := fun _ => true }

/-- An environment whose config file exists and decodes to the JSON
array `["ab", "cde"]` (valid JSON that is not an object). -/
def cenvCfgArr : Env :=
  { baseEnv with
    configExists := fun _ => true
    readConfig := fun _ => .ok (.arr [.str "ab", .str "cde"]) }

/-- A `json.loads` oracle for the two-character text between braces. -/
def cjsonLoads : String → Option (List (String × JValue)) :=
  fun m =>
    if m = "\x7b\x7d" then
      some [("tags", JValue.arr [JValue.str "cat"]), ("scene", JValue.str "indoor")]
    else none

/-- An environment whose config file exists and decodes to the JSON
object with the single key `timeout`. -/
def cenvCfgObj : Env :=
  { baseEnv with
    configExists := fun _ => true
    readConfig := fun _ => .ok (.obj [("timeout", .num 30)]) }

/-- `main` never selects the interactive branch: `runMode` with the mode
`"analyze"` leaves stdin untouched in every case. -/
theorem runMode_analyze_not_stdin (env : Env) (s : Service) (img : Option String)
    (stdin : Except String JValue) :
    (runMode env s "analyze" img stdin).stdinRead = false := by
  unfold runMode
  rw [if_neg (by decide), if_pos rfl]
  cases img with
  | none => rfl
  | some i => split <;> first | rfl | (split <;> rfl)

/-- C1 counterexample: invoking the CLI with no `--mode` flag while a
well-formed `\x7bit "action": "health"\x7d` object waits on stdin does
not behave as the claimed interactive mode: stdin is never read, the one
printed document has status `missing_image` (the argparse default mode
is `analyze` and `--image` is absent), and the exit code is 1 rather
than the health-mode exit 0. -/
theorem c1_counterexample :
    (mainRun baseEnv none none none (.ok (.obj [("action", JValue.str "health")]))).map
        MainOut.stdinRead = some false ∧
    (mainRun baseEnv none none none (.ok (.obj [("action", JValue.str "health")]))).map
        MainOut.exitCode = some 1 ∧
    (mainRun baseEnv none none none (.ok (.obj [("action", JValue.str "health")]))).map
        (fun o => o.stdout.map (fun r => dictGet r "status")) =
      some [some (JValue.str "missing_image")] :=
  ⟨rfl, rfl, rfl⟩

/-- C1 (amended): when the CLI is invoked without a `--mode` flag,
argparse applies the default `--mode analyze`: the run is identical to
an explicit `--mode analyze` invocation and standard input is never
read (the interactive stdin branch of `main` is unreachable from the
command line, since `--mode` only accepts `analyze` and `health`). -/
theorem c1_default_mode_is_analyze (env : Env) (img cfg : Option String)
    (stdin : Except String JValue) :
    mainRun env none img cfg stdin = mainRun env (some "analyze") img cfg stdin ∧
    ∃ out, mainRun env none img cfg stdin = some out ∧ out.stdinRead = false := by
  refine ⟨rfl, ⟨runMode env (mkService (load_config cfg env)) "analyze" img stdin, rfl, ?_⟩⟩
  exact runMode_analyze_not_stdin env (mkService (load_config cfg env)) img stdin

/-- C2: `--mode health` prints exactly one document, the health-check
JSON, and exits 0, whatever the environment (hence whatever the
configuration and whether the model load succeeds or fails). -/
theorem c2_health_mode_prints_one_doc_exit_zero (env : Env) (img cfg : Option String)
    (stdin : Except String JValue) :
    mainRun env (some "health") img cfg stdin =
      some { stdout := [(health_check env (mkService (load_config cfg env))).1]
             exitCode := 0
             service := (health_check env (mkService (load_config cfg env))).2
             stdinRead := false } := rfl

/-- C3: when the image path does not exist, `analyze_image` returns the
`file_error` dict and leaves the entire service state (model handle,
`_model_loaded` flag, ghost load counter) and the caller's settings
untouched: the early return precedes both `Image.open` and
`_load_model`. -/
theorem c3_missing_image_file_error (env : Env) (s : Service) (p : String)
    (c : Option JValue) (h : env.pathExists p = false) :
    analyze_image env s p c =
      { result := [("error", JValue.str ("Image file not found: " ++ p)),
                   ("status", JValue.str "file_error")]
        service := s, custom := c } := by
  unfold analyze_image
  rw [if_pos h]

/-- C3 witness: a concrete run in the all-failing environment. -/
theorem c3_witness :
    analyze_image baseEnv (mkService default_config) "missing.png" none =
      { result := [("error", JValue.str ("Image file not found: " ++ "missing.png")),
                   ("status", JValue.str "file_error")]
        service := mkService default_config, custom := none } :=
  c3_missing_image_file_error baseEnv (mkService default_config) "missing.png" none rfl

/-- C8: in the interactive branch, a stdin JSON object whose `action` is
neither `"analyze"` nor `"health"` (a different string, a non-string
value, or no `action` key at all) yields the `unknown_action` error
document and exit code 1, with the service state — in particular the
ghost load and query counters — exactly as before: no model load and no
model query is attempted. -/
theorem c8_unknown_action (env : Env) (s : Service) (d : List (String × JValue))
    (h1 : dictGet d "action" ≠ some (JValue.str "analyze"))
    (h2 : dictGet d "action" ≠ some (JValue.str "health")) :
    interactiveMode env s (.ok (.obj d)) = unknownAction s (dictGet d "action") ∧
    (interactiveMode env s (.ok (.obj d))).exitCode = 1 ∧
    (interactiveMode env s (.ok (.obj d))).service = s ∧
    dictGet ((interactiveMode env s (.ok (.obj d))).stdout.headD []) "status" =
      some (JValue.str "unknown_action") := by
  have hmain : interactiveMode env s (.ok (.obj d)) = unknownAction s (dictGet d "action") := by
    have hd : interactiveMode env s (.ok (.obj d)) = interactiveDispatch env s d := rfl
    rw [hd]
    cases hac : dictGet d "action" with
    | none => simp [interactiveDispatch, hac]
    | some v =>
      cases v with
      | str a =>
        have ha1 : ¬ a = "analyze" := fun hh => h1 (by rw [hac, hh])
        have ha2 : ¬ a = "health" := fun hh => h2 (by rw [hac, hh])
        simp [interactiveDispatch, hac, ha1, ha2]
      | null => simp [interactiveDispatch, hac]
      | bool b => simp [interactiveDispatch, hac]
      | num q => simp [interactiveDispatch, hac]
      | arr xs => simp [interactiveDispatch, hac]
      | obj kvs => simp [interactiveDispatch, hac]
  refine ⟨hmain, ?_, ?_, ?_⟩ <;> rw [hmain] <;> rfl

/-- C8 witness: the concrete action `"bogus"`. -/
theorem c8_witness :
    interactiveMode baseEnv (mkService default_config)
        (.ok (.obj [("action", JValue.str "bogus")])) =
      unknownAction (mkService default_config) (some (JValue.str "bogus")) ∧
    (interactiveMode baseEnv (mkService default_config)
        (.ok (.obj [("action", JValue.str "bogus")]))).exitCode = 1 ∧
    (interactiveMode baseEnv (mkService default_config)
        (.ok (.obj [("action", JValue.str "bogus")]))).service = mkService default_config ∧
    dictGet ((interactiveMode baseEnv (mkService default_config)
        (.ok (.obj [("action", JValue.str "bogus")]))).stdout.headD []) "status" =
      some (JValue.str "unknown_action") :=
  c8_unknown_action baseEnv (mkService default_config) [("action", JValue.str "bogus")]
    (by simp [dictGet]) (by simp [dictGet])

/-- C10: `_load_model` is memoized on success only.  When the flag is
already set the call returns `True` and the state verbatim (no reload,
ghost counter untouched).  In every call, the flag afterwards is set
exactly when the call returns `True`.  When the flag is down and the
model coordinates are readable, a failing `from_pretrained` leaves the
flag down while stepping the attempt counter — so a subsequent call is
not short-circuited and re-attempts — and a succeeding one stores the
handle, raises the flag and returns `True`.  The function is total: the
`except` of lines 98-103 means no exception escapes. -/
theorem c10_load_model_memoization (env : Env) (s : Service) :
    (s.modelLoaded = true → load_model env s = (true, s)) ∧
    ((load_model env s).2.modelLoaded = true ↔ (load_model env s).1 = true) ∧
    (s.modelLoaded = false → ∀ m, configGetDict s.config "model" = .ok m →
      (∀ e, env.fromPretrained (modelRepo m) (modelTrust m) s.loadAttempts = .error e →
        load_model env s = (false, { s with loadAttempts := s.loadAttempts + 1 })) ∧
      (env.fromPretrained (modelRepo m) (modelTrust m) s.loadAttempts = .ok () →
        load_model env s = (true, { s with model := some ()
                                           modelLoaded := true
                                           loadAttempts := s.loadAttempts + 1 }))) := by
  refine ⟨?_, ?_, ?_⟩
  · intro h
    unfold load_model
    rw [if_pos h]
  · by_cases h : s.modelLoaded = true
    · unfold load_model
      rw [if_pos h]
      simpa using h
    · unfold load_model
      rw [if_neg h]
      cases hc : configGetDict s.config "model" with
      | error e => simpa using h
      | ok m =>
        cases hf : env.fromPretrained (modelRepo m) (modelTrust m) s.loadAttempts with
        | ok u => simp [hf]
        | error e => simpa [hf] using h
  · intro h m hm
    have hne : ¬ s.modelLoaded = true := by simp [h]
    constructor
    · intro e hf
      unfold load_model
      rw [if_neg hne, hm]
      simp [hf]
    · intro hf
      unfold load_model
      rw [if_neg hne, hm]
      simp [hf]

/-- C4: tag-response parsing.  If the brace pattern locates a match that
`json.loads` parses, the structured fields (`objects`, `scene`,
`colors`, `actions`, and `tags` itself) are taken from the parsed
object, with empty defaults for keys it lacks; if there is no brace
match, or the located text fails to parse, the result is the fallback:
tags are the non-empty whitespace-stripped comma segments of the raw
response and all structured fields are empty. -/
theorem c4_tag_response_parsing (jl : String → Option (List (String × JValue)))
    (resp : String) :
    (∀ m d, jsonMatch resp = some m → jl m = some d →
      parseTagsResponse jl resp =
        { tags := (dictGet d "tags").getD (.arr [])
          objects := (dictGet d "objects").getD (.arr [])
          scene := (dictGet d "scene").getD (.str "")
          colors := (dictGet d "colors").getD (.arr [])
          actions := (dictGet d "actions").getD (.arr []) }) ∧
    (jsonMatch resp = none →
      parseTagsResponse jl resp =
        { tags := .arr ((commaTags resp).map JValue.str)
          objects := .arr [], scene := .str "", colors := .arr [], actions := .arr [] }) ∧
    (∀ m, jsonMatch resp = some m → jl m = none →
      parseTagsResponse jl resp =
        { tags := .arr ((commaTags resp).map JValue.str)
          objects := .arr [], scene := .str "", colors := .arr [], actions := .arr [] }) := by
  refine ⟨?_, ?_, ?_⟩
  · intro m d hm hd
    unfold parseTagsResponse
    rw [hm]
    simp [hd]
  · intro hm
    unfold parseTagsResponse
    rw [hm]
    rfl
  · intro m hm hd
    unfold parseTagsResponse
    rw [hm]
    simp [hd, fallbackParse]

/-- C4 witness: the response `"x\x7b\x7dy"` contains the brace match
`"\x7b\x7d"`, which the oracle parses to an object providing `tags` and
`scene`; the remaining structured fields default to empty. -/
theorem c4_witness :
    parseTagsResponse cjsonLoads "x\x7b\x7dy" =
      { tags := JValue.arr [JValue.str "cat"]
        objects := JValue.arr []
        scene := JValue.str "indoor"
        colors := JValue.arr []
        actions := JValue.arr [] } :=
  (c4_tag_response_parsing cjsonLoads "x\x7b\x7dy").1 "\x7b\x7d"
    [("tags", JValue.arr [JValue.str "cat"]), ("scene", JValue.str "indoor")] rfl rfl

/-- C6 counterexample: a config file holding the valid JSON array
`["ab", "cde"]`.  `json.load` succeeds, then `dict.update` consumes the
sequence: the 2-character element `"ab"` inserts the key `"a"` with
value `"b"` into the defaults (in place), and the 3-character element
`"cde"` then raises `ValueError`, which `_load_config` catches and logs
— but the partially-updated dict, not the unchanged defaults, is
returned.  So "invalid JSON or any read error leaves the defaults
unchanged" is false as stated. -/
theorem c6_counterexample :
    dictGet (load_config (some "photocopy.json") cenvCfgArr) "a" = some (JValue.str "b") ∧
    dictGet default_config "a" = none ∧
    load_config (some "photocopy.json") cenvCfgArr ≠ default_config := by
  refine ⟨rfl, rfl, ?_⟩
  intro h
  have h2 : (some (JValue.str "b") : Option JValue) = (none : Option JValue) := by
    calc (some (JValue.str "b") : Option JValue)
        = dictGet (load_config (some "photocopy.json") cenvCfgArr) "a" := rfl
      _ = dictGet default_config "a" := by rw [h]
      _ = none := rfl
  exact Option.noConfusion h2

/-- C6 (amended): configuration loading is total (every exception is
caught).  An absent or empty path, a missing file, or a failure to open
or decode the file leaves the defaults unchanged.  A file decoding to a
JSON object shallow-overwrites the default keys with its top-level
keys.  A file decoding to valid JSON that is not an object is consumed
by `dict.update` as a key-value sequence applied in place, and the
entries applied before any failure are retained in the returned
mapping, which may therefore differ from the defaults. -/
theorem c6_config_loading (p : String) (env : Env) :
    (load_config none env = default_config) ∧
    (load_config (some "") env = default_config) ∧
    (env.configExists p = false → load_config (some p) env = default_config) ∧
    (∀ e, env.readConfig p = .error e → load_config (some p) env = default_config) ∧
    (∀ kvs, p ≠ "" → env.configExists p = true → env.readConfig p = .ok (.obj kvs) →
      load_config (some p) env = dictUpdate default_config kvs) ∧
    (∀ v, p ≠ "" → env.configExists p = true → env.readConfig p = .ok v →
      load_config (some p) env = (updateFromJson default_config v).1) := by
  refine ⟨rfl, rfl, ?_, ?_, ?_, ?_⟩
  · intro hex
    simp only [load_config]
    by_cases hp : p = ""
    · rw [if_pos hp]
    · rw [if_neg hp, if_neg (by simp [hex])]
  · intro e herr
    simp only [load_config]
    by_cases hp : p = ""
    · rw [if_pos hp]
    · rw [if_neg hp]
      by_cases hex : env.configExists p = true
      · rw [if_pos hex, herr]
      · rw [if_neg hex]
  · intro kvs hp hex hok
    simp only [load_config]
    rw [if_neg hp, if_pos hex, hok]
    rfl
  · intro v hp hex hok
    simp only [load_config]
    rw [if_neg hp, if_pos hex, hok]

/-- C6 witness: a config file decoding to the object
`\x7b"timeout": 30\x7d` overwrites the default `timeout`. -/
theorem c6_witness :
    load_config (some "photocopy.json") cenvCfgObj =
      dictUpdate default_config [("timeout", JValue.num 30)] :=
  ((c6_config_loading "photocopy.json" cenvCfgObj).2.2.2.2.1)
    [("timeout", JValue.num 30)] (by simp) rfl rfl

/-- Case analysis of `analyze_image`: every result is a `file_error`
dict, the `model_error` dict, an `analysis_error` dict (`errResult`), or
the success dict, whose `tags` entry is an output of `jtake15`. -/
theorem analyze_image_cases (env : Env) (s : Service) (p : String) (c : Option JValue) :
    (∃ msg, (analyze_image env s p c).result =
      [("error", JValue.str msg), ("status", JValue.str "file_error")]) ∨
    ((analyze_image env s p c).result =
      [("error", JValue.str "Failed to load ML model"), ("status", JValue.str "model_error")]) ∨
    (∃ msg, (analyze_image env s p c).result = errResult env msg) ∨
    (∃ caption tags15 analysis mi sz, (∃ t, jtake15 t = Except.ok tags15) ∧
      (analyze_image env s p c).result =
        [("status", JValue.str "success"), ("caption", JValue.str caption),
         ("tags", tags15), ("analysis", analysis),
         ("processing_time", JValue.num (env.tEnd - env.tStart)),
         ("image_path", JValue.str p), ("image_size", sz), ("model_info", mi)]) := by
  unfold analyze_image
  split
  · exact Or.inl ⟨_, rfl⟩
  · split
    · exact Or.inr (Or.inr (Or.inl ⟨_, rfl⟩))
    · split
      · exact Or.inr (Or.inl rfl)
      · split
        · exact Or.inr (Or.inr (Or.inl ⟨_, rfl⟩))
        · split
          · exact Or.inr (Or.inr (Or.inl ⟨_, rfl⟩))
          · split
            · exact Or.inr (Or.inr (Or.inl ⟨_, rfl⟩))
            · split
              · exact Or.inr (Or.inr (Or.inl ⟨_, rfl⟩))
              · split
                · exact Or.inr (Or.inr (Or.inl ⟨_, rfl⟩))
                · split
                  · exact Or.inr (Or.inr (Or.inl ⟨_, rfl⟩))
                  · rename_i t15 heq
                    split
                    · exact Or.inr (Or.inr (Or.inl ⟨_, rfl⟩))
                    · exact Or.inr (Or.inr (Or.inr
                        ⟨_, t15, _, _, _, ⟨_, heq⟩, rfl⟩))

/-- An output of `tags[:15]` has length at most 15 (whether the sliced
value was a list or a string). -/
theorem jtake15_length (t t15 : JValue) (h : jtake15 t = Except.ok t15) :
    ∃ n, jlength t15 = some n ∧ n ≤ 15 := by
  cases t with
  | arr xs =>
    simp only [jtake15, Except.ok.injEq] at h
    subst h
    exact ⟨(xs.take 15).length, rfl, by rw [List.length_take]; exact min_le_left _ _⟩
  | str s =>
    simp only [jtake15, Except.ok.injEq] at h
    subst h
    exact ⟨(s.data.take 15).length, rfl, by rw [List.length_take]; exact min_le_left _ _⟩
  | null => simp [jtake15] at h
  | bool b => simp [jtake15] at h
  | num q => simp [jtake15] at h
  | obj kvs => simp [jtake15] at h

/-- C5: in every successful `analyze_image` result, the `tags` value has
length at most 15 (`tags[:15]` truncates it on line 188). -/
theorem c5_success_tags_at_most_15 (env : Env) (s : Service) (p : String)
    (c : Option JValue)
    (h : dictGet (analyze_image env s p c).result "status" = some (JValue.str "success")) :
    ∃ t n, dictGet (analyze_image env s p c).result "tags" = some t ∧
      jlength t = some n ∧ n ≤ 15 := by
  rcases analyze_image_cases env s p c with ⟨msg, hr⟩ | hr | ⟨msg, hr⟩ |
    ⟨cap, t15, an, mi, sz, ⟨t, ht⟩, hr⟩
  · rw [hr] at h
    simp [dictGet] at h
  · rw [hr] at h
    simp [dictGet] at h
  · rw [hr] at h
    simp [errResult, dictGet] at h
  · rw [hr]
    obtain ⟨n, hn, hle⟩ := jtake15_length t t15 ht
    exact ⟨t15, n, rfl, hn, hle⟩

/-- C5 witness: a concrete successful analysis. -/
theorem c5_witness :
    ∃ t n, dictGet (analyze_image cenvOk (mkService default_config) "img.png" none).result
        "tags" = some t ∧ jlength t = some n ∧ n ≤ 15 :=
  c5_success_tags_at_most_15 cenvOk (mkService default_config) "img.png" none rfl

/-- C7: `analyze_image` is total (the Lean embedding returns a result
dict in every case, mirroring the `try/except Exception` of lines
109-210 through which no exception escapes): its `status` is always one
of `success`, `file_error`, `model_error`, `analysis_error`, and every
`analysis_error` result carries an `error` message together with a
`processing_time` equal to the elapsed time since the call started. -/
theorem c7_analyze_never_raises (env : Env) (s : Service) (p : String)
    (c : Option JValue) :
    (dictGet (analyze_image env s p c).result "status" = some (JValue.str "success") ∨
     dictGet (analyze_image env s p c).result "status" = some (JValue.str "file_error") ∨
     dictGet (analyze_image env s p c).result "status" = some (JValue.str "model_error") ∨
     dictGet (analyze_image env s p c).result "status" = some (JValue.str "analysis_error")) ∧
    (dictGet (analyze_image env s p c).result "status" = some (JValue.str "analysis_error") →
      (∃ m, dictGet (analyze_image env s p c).result "error" = some (JValue.str m)) ∧
      dictGet (analyze_image env s p c).result "processing_time" =
        some (JValue.num (env.tEnd - env.tStart))) := by
  rcases analyze_image_cases env s p c with ⟨msg, hr⟩ | hr | ⟨msg, hr⟩ |
    ⟨cap, t15, an, mi, sz, ht, hr⟩ <;> rw [hr]
  · refine ⟨Or.inr (Or.inl rfl), fun hc => ?_⟩
    simp [dictGet] at hc
  · refine ⟨Or.inr (Or.inr (Or.inl rfl)), fun hc => ?_⟩
    simp [dictGet] at hc
  · exact ⟨Or.inr (Or.inr (Or.inr rfl)), fun _ => ⟨⟨msg, rfl⟩, rfl⟩⟩
  · refine ⟨Or.inl rfl, fun hc => ?_⟩
    simp [dictGet] at hc

/-- C7 witness: `Image.open` raising is reported as `analysis_error`
with the error message and the elapsed time. -/
theorem c7_witness :
    (∃ m, dictGet (analyze_image cenvImgErr (mkService default_config) "img.png" none).result
        "error" = some (JValue.str m)) ∧
    dictGet (analyze_image cenvImgErr (mkService default_config) "img.png" none).result
        "processing_time" = some (JValue.num (cenvImgErr.tEnd - cenvImgErr.tStart)) :=
  (c7_analyze_never_raises cenvImgErr (mkService default_config) "img.png" none).2 rfl

/-- `_load_model` never touches the configuration. -/
theorem load_model_config (env : Env) (s : Service) :
    (load_model env s).2.config = s.config := by
  unfold load_model
  split
  · rfl
  · split
    · rfl
    · split <;> rfl

/-- Once `analyze_image` has passed validation and the settings step,
the final service configuration and the caller-visible settings are
those produced by the settings step, whatever the queries then do. -/
theorem analyze_image_after_settings (env : Env) (s : Service) (p : String)
    (c : Option JValue) (s2 : Service) (c2 : Option JValue) (im : Nat × Nat)
    (hp : env.pathExists p = true) (hio : env.imageOpen p = .ok im)
    (hl : (load_model env s).1 = true)
    (hset : settingsStep (load_model env s).2 c = .ok (s2, c2)) :
    (analyze_image env s p c).service.config = s2.config ∧
    (analyze_image env s p c).custom = c2 := by
  unfold analyze_image
  rw [if_neg (by simp [hp])]
  simp only [hio, hl, hset]
  rw [if_neg (by simp)]
  constructor <;> ((repeat' split) <;> rfl)

/-- C9 counterexample: calling `analyze_image` with an explicitly
given, but empty, custom settings dict.
Python evaluates `custom_settings or self.config.get(...)` and an empty
dict is falsy, so the *service configuration's* `generationSettings`
dict is the one popped in place: after the (successful) call the stored
configuration no longer has the `length` key, while the caller's dict is
untouched.  This contradicts the claim's dichotomy, which says that when
custom settings are given the caller's dict loses the key *instead*. -/
theorem c9_counterexample :
    (analyze_image cenvOk (mkService default_config) "img.png"
        (some (JValue.obj []))).custom = some (JValue.obj []) ∧
    dictGet (analyze_image cenvOk (mkService default_config) "img.png"
        (some (JValue.obj []))).service.config "generationSettings" =
      some (JValue.obj [("temperature", JValue.num (1/2)),
                        ("maxTokens", JValue.num 768),
                        ("topP", JValue.num (3/10))]) ∧
    dictGet (analyze_image cenvOk (mkService default_config) "img.png"
        (some (JValue.obj []))).result "status" = some (JValue.str "success") :=
  ⟨rfl, rfl, rfl⟩

/-- C9 (amended): once `analyze_image` reaches the settings step (the
image exists, opens, and the model loads), `settings.pop("length", ...)`
mutates a dict in place.  When the custom settings are absent *or falsy*
(Python `or`: `None`, an empty dict, or any other falsy value), the
popped dict is the service config's own `generationSettings` mapping, so
the stored configuration — as echoed by a later `health_check` — loses
the `length` key while the caller's value is returned unchanged.  Only
when a *truthy* custom settings dict is given does that dict lose its
`length` key, the stored configuration then being unchanged. -/
theorem c9_settings_pop_in_place (env : Env) (s : Service) (p : String)
    (c : Option JValue) (im : Nat × Nat)
    (hp : env.pathExists p = true) (hio : env.imageOpen p = .ok im)
    (hl : (load_model env s).1 = true) :
    (∀ gs, (c = none ∨ ∃ v, c = some v ∧ truthy v = false) →
      dictGet s.config "generationSettings" = some (JValue.obj gs) →
      (analyze_image env s p c).service.config =
        dictSet s.config "generationSettings" (JValue.obj (dictPop gs "length")) ∧
      (analyze_image env s p c).custom = c) ∧
    (∀ kvs, c = some (JValue.obj kvs) → truthy (JValue.obj kvs) = true →
      (analyze_image env s p c).custom = some (JValue.obj (dictPop kvs "length")) ∧
      (analyze_image env s p c).service.config = s.config) := by
  have hcfg : (load_model env s).2.config = s.config := load_model_config env s
  constructor
  · intro gs hc hgs
    have hset : settingsStep (load_model env s).2 c =
        .ok ({ (load_model env s).2 with
                 config := dictSet s.config "generationSettings"
                   (JValue.obj (dictPop gs "length")) }, c) := by
      rcases hc with rfl | ⟨v, rfl, hv⟩
      · simp only [settingsStep]
        unfold settingsFromConfig
        rw [hcfg, hgs]
      · simp only [settingsStep]
        rw [if_neg (by simp [hv])]
        unfold settingsFromConfig
        rw [hcfg, hgs]
    have h := analyze_image_after_settings env s p c _ _ im hp hio hl hset
    exact ⟨h.1, h.2⟩
  · intro kvs hckv hv
    subst hckv
    have hset : settingsStep (load_model env s).2 (some (JValue.obj kvs)) =
        .ok ((load_model env s).2, some (JValue.obj (dictPop kvs "length"))) := by
      simp only [settingsStep]
      rw [if_pos hv]
    have h := analyze_image_after_settings env s p (some (JValue.obj kvs)) _ _ im hp hio hl hset
    exact ⟨h.2, h.1.trans hcfg⟩

/-- C9 witness: with no custom settings, the default config's
`generationSettings` loses its `length` key in place. -/
theorem c9_witness :
    (analyze_image cenvOk (mkService default_config) "img.png" none).service.config =
      dictSet default_config "generationSettings"
        (JValue.obj (dictPop [("temperature", JValue.num (1/2)),
                              ("maxTokens", JValue.num 768),
                              ("topP", JValue.num (3/10)),
                              ("length", JValue.str "short")] "length")) ∧
    (analyze_image cenvOk (mkService default_config) "img.png" none).custom = none :=
  (c9_settings_pop_in_place cenvOk (mkService default_config) "img.png" none (2, 3)
      rfl rfl rfl).1
    [("temperature", JValue.num (1/2)), ("maxTokens", JValue.num 768),
     ("topP", JValue.num (3/10)), ("length", JValue.str "short")]
    (Or.inl rfl) rfl

/-- C10 witness: first attempt in the offline environment fails and
steps the counter. -/
theorem c10_witness :
    load_model baseEnv (mkService default_config) =
      (false, { mkService default_config with loadAttempts := 1 }) :=
  ((c10_load_model_memoization baseEnv (mkService default_config)).2.2 rfl
    [("name", JValue.str "moondream2"),
     ("repository", JValue.str "vikhyatk/moondream2"),
     ("trustRemoteCode", JValue.bool true),
     ("device", JValue.str "mps")] rfl).1 "OSError: offline" rfl

end Photocopy
